import Mathlib

/-!
Verification of the attribute-tree / struct mapping layer of the
terraform-provider-cloudflare sources under internal/sdkv2provider
(schema_cloudflare_access_application.go and
resource_cloudflare_teams_location.go).

Embedding conventions, shared by every definition below:

* The generic Go attribute value (interface values holding strings,
  booleans, lists and string-keyed maps) is the inductive type Val.  The
  Go nil interface is Val.vNil.  The attribute tree is taken in the
  framework-normalised form in which every nested list is a list of
  generic values, the form in which the provider framework hands trees
  to the inflate functions.
* Go functions returning (T, error) become GoResult T = Except GoErr T,
  where GoErr.err m is a returned error value with message m and
  GoErr.panic is a Go runtime panic (index out of range, failed type
  assertion without the comma-ok form).  A panic is never a returned
  error; the two are kept distinct because the source wraps only
  returned errors.
* Fields read through the typed schema accessors d.Get / d.GetOk are
  embedded as typed record fields.  The framework contract for GetOk is
  ok = present and not the zero value, and Get yields the zero value of
  the declared type when the field is absent; both are reflected by
  Option fields for block attributes and by explicit isEmpty tests where
  the source guards an assignment with GetOk.
* Go pointer fields of API structs are embedded as Option where the
  source distinguishes nil, and as plain values where the source always
  dereferences.
-/

namespace SdkV2

/-- Generic attribute value: the shallow embedding of the Go interface
value stored in the provider attribute tree.  vNil is the nil
interface. -/
inductive Val where
  | vNil : Val
  | vBool (b : Bool) : Val
  | vInt (n : Int) : Val
  | vStr (s : String) : Val
  | vList (l : List Val) : Val
  | vMap (m : List (String × Val)) : Val
deriving Repr

/-- Outcome of a Go call: a returned error with its message, or a
runtime panic. -/
inductive GoErr where
  | panic : GoErr
  | err (msg : String) : GoErr
deriving Repr, DecidableEq

/-- Go (T, error) results, with panics tracked separately. -/
abbrev GoResult (α : Type) := Except GoErr α

/-- Reading a key from a Go map of interface values: a missing key
yields the nil interface. -/
def mapLookup (m : List (String × Val)) (k : String) : Val :=
  match m.find? (fun p => p.1 == k) with
  | some p => p.2
  | none => Val.vNil

/-- The Go type assertion v.(bool) without the comma-ok form: panics
unless the value is a boolean. -/
def asBoolPanic (v : Val) : GoResult Bool :=
  match v with
  | Val.vBool b => Except.ok b
  | _ => Except.error GoErr.panic

/-- The Go type assertion v.(string) without the comma-ok form: panics
unless the value is a string. -/
def asStrPanic (v : Val) : GoResult String :=
  match v with
  | Val.vStr s => Except.ok s
  | _ => Except.error GoErr.panic

/-- Replace a returned error by a wrapping message, exactly as the Go
callers do with fmt.Errorf after an err check; panics pass through
untouched because a Go panic is not a returned error. -/
def wrapErr {α : Type} (r : GoResult α) (msg : String) : GoResult α :=
  match r with
  | Except.error (GoErr.err _) => Except.error (GoErr.err msg)
  | other => other

/-- Occurrence of one character list inside another, scanning every
suffix. -/
def hasSub (sub : List Char) : List Char → Bool
  | [] => sub.isEmpty
  | c :: cs => sub.isPrefixOf (c :: cs) || hasSub sub cs

/-- Go strings.Contains: substring containment. -/
def strContains (s sub : String) : Bool :=
  hasSub sub.toList s.toList

/-! ## CORS conversion (schema_cloudflare_access_application.go) -/

/-- Configuration block cors_headers, with the fields the converter
reads; set-valued attributes are carried as already-expanded string
lists (the source applies expandInterfaceToStringList to the set
contents). -/
structure CorsHeadersBlock where
  allowed_methods : List String := []
  allowed_headers : List String := []
  allowed_origins : List String := []
  allow_all_methods : Bool := false
  allow_all_headers : Bool := false
  allow_all_origins : Bool := false
  allow_credentials : Bool := false
  max_age : Int := 0
deriving Repr, DecidableEq

/-- cloudflare.AccessApplicationCorsHeaders, the typed API struct the
converter assembles. -/
structure AccessApplicationCorsHeaders where
  AllowedMethods : List String := []
  AllowedHeaders : List String := []
  AllowedOrigins : List String := []
  AllowAllMethods : Bool := false
  AllowAllHeaders : Bool := false
  AllowAllOrigins : Bool := false
  AllowCredentials : Bool := false
  MaxAge : Int := 0
deriving Repr, DecidableEq

/-- Modelled from the spec: the repository helper contains reports
whether a string slice holds a given item (the helper lives outside the
two provided source files). -/
def contains (l : List String) (s : String) : Bool :=
  l.contains s

/-- Source block data for SAML attributes and OIDC claims: name plus the
per-IdP name override mapping. -/
structure SourceConfigData where
  name : String := ""
  name_by_idp : List (String × String) := []
deriving Repr, DecidableEq

/-- One custom_claim block of the saas_app configuration. -/
structure OIDCClaimData where
  name : String := ""
  scope : String := ""
  required : Bool := false
  source : List SourceConfigData := []
deriving Repr, DecidableEq

/-- One custom_attribute block of the saas_app configuration. -/
structure SAMLAttributeData where
  name : String := ""
  name_format : String := ""
  required : Bool := false
  friendly_name : String := ""
  source : List SourceConfigData := []
deriving Repr, DecidableEq

/-- One target_attributes block of a target_criteria entry. -/
structure TargetAttributeBlock where
  name : String := ""
  values : List String := []
deriving Repr, DecidableEq

/-- One target_criteria entry as the converter reads it. -/
structure TargetCriteriaItem where
  port : Int := 0
  protocol : String := ""
  target_attributes : List TargetAttributeBlock := []
deriving Repr, DecidableEq

/-- One scim_config authentication block with every field any scheme
branch of the converter reads. -/
structure ScimAuthBlock where
  scheme : String := ""
  user : String := ""
  password : String := ""
  token : String := ""
  client_id : String := ""
  client_secret : String := ""
  authorization_url : String := ""
  token_url : String := ""
  scopes : List String := []
deriving Repr, DecidableEq

/-- The saas_app configuration block with the fields the OIDC and SAML
converters read. -/
structure SaasAppBlock where
  auth_type : String := ""
  client_id : String := ""
  app_launcher_url : String := ""
  redirect_uris : List String := []
  grant_types : List String := []
  scopes : List String := []
  group_filter_regex : String := ""
  access_token_lifetime : String := ""
  allow_pkce_without_client_secret : Bool := false
  refresh_token_options_lifetime : Option String := none
  custom_claim : List OIDCClaimData := []
  hybrid_and_implicit_return_access_token : Bool := false
  hybrid_and_implicit_return_id_token : Bool := false
  hybrid_and_implicit_options_present : Bool := false
  sp_entity_id : String := ""
  consumer_service_url : String := ""
  name_id_format : String := ""
  default_relay_state : String := ""
  name_id_transform_jsonata : String := ""
  saml_attribute_transform_jsonata : String := ""
  custom_attribute : List SAMLAttributeData := []
deriving Repr, DecidableEq

/-- The slice of the access-application resource data that the four
converters under verification read.  A none block means the block list
is absent or empty, which is exactly when GetOk on the block key reports
ok = false. -/
structure AccessAppResourceData where
  cors_headers : Option CorsHeadersBlock := none
  saas_app : Option SaasAppBlock := none
  target_criteria : List TargetCriteriaItem := []
  scim_authentication : List ScimAuthBlock := []
deriving Repr, DecidableEq

/-- convertCORSSchemaToStruct: reads the cors_headers block, assembles
the typed struct, and performs the two cross-field validations; the
GetOk guards of the source on the three set attributes are reflected by
the isEmpty conditionals (GetOk is false exactly on the empty set, and
skipping the assignment leaves the zero value, an empty list). -/
def convertCORSSchemaToStruct (d : AccessAppResourceData) :
    Except String AccessApplicationCorsHeaders :=
  match d.cors_headers with
  | none => Except.ok {}
  | some ch =>
    let c0 : AccessApplicationCorsHeaders := {}
    let c1 := if ch.allowed_methods.isEmpty then c0
              else { c0 with AllowedMethods := ch.allowed_methods }
    let c2 := if ch.allowed_headers.isEmpty then c1
              else { c1 with AllowedHeaders := ch.allowed_headers }
    let c3 := if ch.allowed_origins.isEmpty then c2
              else { c2 with AllowedOrigins := ch.allowed_origins }
    let c : AccessApplicationCorsHeaders :=
      { c3 with
        AllowAllMethods := ch.allow_all_methods
        AllowAllHeaders := ch.allow_all_headers
        AllowAllOrigins := ch.allow_all_origins
        AllowCredentials := ch.allow_credentials
        MaxAge := ch.max_age }
    if c.AllowCredentials && (contains c.AllowedOrigins "*" || c.AllowAllOrigins) then
      Except.error "CORS credentials are not permitted when all origins are allowed"
    else if (c.AllowAllOrigins || c.AllowedOrigins.length > 1)
         && (c.AllowAllMethods == false && c.AllowedMethods.length == 0) then
      Except.error "must set allowed_methods or allow_all_methods"
    else if (c.AllowAllMethods || c.AllowedMethods.length > 1)
         && (c.AllowAllOrigins == false && c.AllowedOrigins.length == 0) then
      Except.error "must set allowed_origins or allow_all_origins"
    else
      Except.ok c

/-! ## SAAS application conversion -/

/-- Source constant saasAuthTypeOIDC of
schema_cloudflare_access_application.go: the auth-type discriminator
value for the OIDC variant. -/
def saasAuthTypeOIDC : String := "oidc"

/-- Source constant saasAuthTypeSAML of
schema_cloudflare_access_application.go: the auth-type discriminator
value for the SAML variant. -/
def saasAuthTypeSAML : String := "saml"

/-- cloudflare.SAMLAttributeConfig source sub-struct shared with OIDC
claims. -/
structure SourceConfig where
  Name : String := ""
  NameByIDP : List (String × String) := []
deriving Repr, DecidableEq

/-- cloudflare.SAMLAttributeConfig. -/
structure SAMLAttributeConfig where
  Name : String := ""
  NameFormat : String := ""
  Required : Bool := false
  FriendlyName : String := ""
  Source : SourceConfig := {}
deriving Repr, DecidableEq

/-- cloudflare.OIDCClaimConfig; the Required pointer is an Option. -/
structure OIDCClaimConfig where
  Name : String := ""
  Scope : String := ""
  Required : Option Bool := none
  Source : SourceConfig := {}
deriving Repr, DecidableEq

/-- cloudflare.RefreshTokenOptions. -/
structure RefreshTokenOptions where
  Lifetime : String := ""
deriving Repr, DecidableEq

/-- cloudflare.AccessApplicationHybridAndImplicitOptions with its two
boolean pointers. -/
structure HybridAndImplicitOptions where
  ReturnAccessTokenFromAuthorizationEndpoint : Option Bool := none
  ReturnIDTokenFromAuthorizationEndpoint : Option Bool := none
deriving Repr, DecidableEq

/-- cloudflare.SaasApplication: one struct co-locating the OIDC and the
SAML field sets, discriminated by AuthType; pointer fields are
Options. -/
structure SaasApplication where
  AuthType : String := ""
  ClientID : String := ""
  AppLauncherURL : String := ""
  RedirectURIs : List String := []
  GrantTypes : List String := []
  Scopes : List String := []
  GroupFilterRegex : String := ""
  AccessTokenLifetime : String := ""
  AllowPKCEWithoutClientSecret : Option Bool := none
  RefreshTokenOptions : Option RefreshTokenOptions := none
  CustomClaims : Option (List OIDCClaimConfig) := none
  HybridAndImplicitOptions : Option HybridAndImplicitOptions := none
  SPEntityID : String := ""
  ConsumerServiceUrl : String := ""
  NameIDFormat : String := ""
  DefaultRelayState : String := ""
  NameIDTransformJsonata : String := ""
  SamlAttributeTransformJsonata : String := ""
  CustomAttributes : Option (List SAMLAttributeConfig) := none
deriving Repr, DecidableEq

/-- The saas_app block as seen through Get: when the block is absent
every field reads as its zero value. -/
def saasBlock (d : AccessAppResourceData) : SaasAppBlock :=
  d.saas_app.getD {}

/-- convertSAMLAttributeSchemaToStruct: reads one custom_attribute
block; only the first source entry is consulted. -/
def convertSAMLAttributeSchemaToStruct (data : SAMLAttributeData) : SAMLAttributeConfig :=
  let src : SourceConfig :=
    match data.source with
    | s :: _ => { Name := s.name, NameByIDP := s.name_by_idp }
    | [] => {}
  { Name := data.name
    NameFormat := data.name_format
    Required := data.required
    FriendlyName := data.friendly_name
    Source := src }

/-- convertOIDCClaimSchemaToStruct: reads one custom_claim block; only
the first source entry is consulted, and Required becomes a pointer. -/
def convertOIDCClaimSchemaToStruct (data : OIDCClaimData) : OIDCClaimConfig :=
  let src : SourceConfig :=
    match data.source with
    | s :: _ => { Name := s.name, NameByIDP := s.name_by_idp }
    | [] => {}
  { Name := data.name
    Scope := data.scope
    Required := some data.required
    Source := src }

/-- convertSaasOIDCSchemaToStruct: assembles the OIDC variant from the
saas_app block, fixing AuthType to the OIDC constant. -/
def convertSaasOIDCSchemaToStruct (d : AccessAppResourceData) : SaasApplication :=
  let b := saasBlock d
  let base : SaasApplication :=
    { AuthType := saasAuthTypeOIDC
      ClientID := b.client_id
      AppLauncherURL := b.app_launcher_url
      RedirectURIs := b.redirect_uris
      GrantTypes := b.grant_types
      Scopes := b.scopes
      GroupFilterRegex := b.group_filter_regex
      AccessTokenLifetime := b.access_token_lifetime
      AllowPKCEWithoutClientSecret := some b.allow_pkce_without_client_secret }
  let base :=
    match b.refresh_token_options_lifetime with
    | some lifetime => { base with RefreshTokenOptions := some { Lifetime := lifetime } }
    | none => base
  let base :=
    if b.custom_claim.length != 0 then
      { base with CustomClaims := some (b.custom_claim.map convertOIDCClaimSchemaToStruct) }
    else base
  if b.hybrid_and_implicit_options_present then
    { base with
      HybridAndImplicitOptions := some
        { ReturnAccessTokenFromAuthorizationEndpoint := some b.hybrid_and_implicit_return_access_token
          ReturnIDTokenFromAuthorizationEndpoint := some b.hybrid_and_implicit_return_id_token } }
  else base

/-- convertSaasSAMLSchemaToStruct: assembles the SAML variant from the
saas_app block, fixing AuthType to the SAML constant. -/
def convertSaasSAMLSchemaToStruct (d : AccessAppResourceData) : SaasApplication :=
  let b := saasBlock d
  let base : SaasApplication :=
    { AuthType := saasAuthTypeSAML
      SPEntityID := b.sp_entity_id
      ConsumerServiceUrl := b.consumer_service_url
      NameIDFormat := b.name_id_format
      DefaultRelayState := b.default_relay_state
      NameIDTransformJsonata := b.name_id_transform_jsonata
      SamlAttributeTransformJsonata := b.saml_attribute_transform_jsonata }
  if b.custom_attribute.length != 0 then
    { base with CustomAttributes := some (b.custom_attribute.map convertSAMLAttributeSchemaToStruct) }
  else base

/-- convertSaasSchemaToStruct: dispatches on the auth_type attribute;
GetOk yields the zero value (the empty string) when the attribute is
absent, and every value other than oidc takes the SAML branch. -/
def convertSaasSchemaToStruct (d : AccessAppResourceData) : SaasApplication :=
  if (saasBlock d).auth_type == "oidc" then
    convertSaasOIDCSchemaToStruct d
  else
    convertSaasSAMLSchemaToStruct d

/-! ## Target-context conversion -/

/-- Modelled from the SDK constant cloudflare.AccessInfrastructureSSH as
used by the source switch on the protocol attribute. -/
def AccessInfrastructureSSH : String := "SSH"

/-- Modelled from the SDK constant cloudflare.AccessInfrastructureRDP. -/
def AccessInfrastructureRDP : String := "RDP"

/-- cloudflare.AccessInfrastructureTargetContext; the Go map from
attribute name to string list is an association list. -/
structure AccessInfrastructureTargetContext where
  Port : Int := 0
  Protocol : String := ""
  TargetAttributes : List (String × List String) := []
deriving Repr, DecidableEq

/-- Inner loop of convertTargetContextsToStruct over the
target_attributes blocks: every iteration builds a fresh single-entry
map from the block name to its values and overwrites the accumulator,
so the fold keeps only the final block. -/
def targetAttributesOfBlocks (blocks : List TargetAttributeBlock) :
    List (String × List String) :=
  blocks.foldl (fun _ b => [(b.name, b.values)]) []

/-- Loop body of convertTargetContextsToStruct: the targetContext
accumulator is declared outside the loop in the source, so fields carry
over from one entry to the next when an entry leaves them unset. -/
def convertTargetContextsLoop :
    List TargetCriteriaItem → List AccessInfrastructureTargetContext →
    AccessInfrastructureTargetContext →
    Except String (List AccessInfrastructureTargetContext)
  | [], acc, _ => Except.ok acc
  | item :: rest, acc, tc =>
    let tc := { tc with Port := item.port }
    if item.protocol == "SSH" then
      let tc := { tc with Protocol := AccessInfrastructureSSH }
      let tc :=
        if item.target_attributes.length > 0 then
          { tc with TargetAttributes := targetAttributesOfBlocks item.target_attributes }
        else tc
      convertTargetContextsLoop rest (acc ++ [tc]) tc
    else if item.protocol == "RDP" then
      let tc := { tc with Protocol := AccessInfrastructureRDP }
      let tc :=
        if item.target_attributes.length > 0 then
          { tc with TargetAttributes := targetAttributesOfBlocks item.target_attributes }
        else tc
      convertTargetContextsLoop rest (acc ++ [tc]) tc
    else
      Except.error "failed to parse protocol: value must be one of SSH or RDP"

/-- convertTargetContextsToStruct: GetOk on target_criteria is false on
the empty list, in which case the empty slice is returned without
error. -/
def convertTargetContextsToStruct (d : AccessAppResourceData) :
    Except String (List AccessInfrastructureTargetContext) :=
  if d.target_criteria.isEmpty then Except.ok []
  else convertTargetContextsLoop d.target_criteria [] {}

/-! ## SCIM authentication conversion -/

/-- Modelled from the SDK constant
cloudflare.AccessApplicationScimAuthenticationSchemeHttpBasic. -/
def schemeHttpBasic : String := "httpbasic"

/-- Modelled from the SDK constant
cloudflare.AccessApplicationScimAuthenticationSchemeOauthBearerToken. -/
def schemeOauthBearerToken : String := "oauthbearertoken"

/-- Modelled from the SDK constant
cloudflare.AccessApplicationScimAuthenticationSchemeOauth2. -/
def schemeOauth2 : String := "oauth2"

/-- Modelled from the SDK constant
cloudflare.AccessApplicationScimAuthenticationAccessServiceToken. -/
def schemeAccessServiceToken : String := "access_service_token"

/-- The four typed SCIM authentication variants the converter can
produce, each carrying the scheme tag stored on the base struct. -/
inductive ScimAuthValue where
  | httpBasic (scheme user password : String) : ScimAuthValue
  | oauthBearerToken (scheme token : String) : ScimAuthValue
  | oauth2 (scheme clientID clientSecret authorizationURL tokenURL : String)
      (scopes : List String) : ScimAuthValue
  | serviceToken (scheme clientID clientSecret : String) : ScimAuthValue
deriving Repr

/-- convertScimConfigAuthenticationSchemaToStruct: walks the
authentication blocks in order (the GetOk-indexed loop of the source
visits exactly the present entries), appending one typed variant per
recognised scheme; an unknown scheme appends nothing. -/
def convertScimConfigAuthenticationSchemaToStruct
    (blocks : List ScimAuthBlock) : List ScimAuthValue :=
  blocks.foldl
    (fun multi b =>
      if b.scheme == schemeHttpBasic then
        multi ++ [ScimAuthValue.httpBasic b.scheme b.user b.password]
      else if b.scheme == schemeOauthBearerToken then
        multi ++ [ScimAuthValue.oauthBearerToken b.scheme b.token]
      else if b.scheme == schemeOauth2 then
        multi ++ [ScimAuthValue.oauth2 b.scheme b.client_id b.client_secret
          b.authorization_url b.token_url b.scopes]
      else if b.scheme == schemeAccessServiceToken then
        multi ++ [ScimAuthValue.serviceToken b.scheme b.client_id b.client_secret]
      else multi)
    []

/-- convertScimConfigSingleAuthentiationToSchema: renders one typed
variant back to an attribute map; each variant emits exactly its own
field set. -/
def convertScimConfigSingleAuthentiationToSchema (v : ScimAuthValue) :
    List (String × Val) :=
  match v with
  | ScimAuthValue.httpBasic scheme user password =>
    [("scheme", Val.vStr scheme), ("user", Val.vStr user), ("password", Val.vStr password)]
  | ScimAuthValue.oauthBearerToken scheme token =>
    [("scheme", Val.vStr scheme), ("token", Val.vStr token)]
  | ScimAuthValue.oauth2 scheme clientID clientSecret authorizationURL tokenURL scopes =>
    [("scheme", Val.vStr scheme), ("client_id", Val.vStr clientID),
     ("client_secret", Val.vStr clientSecret),
     ("authorization_url", Val.vStr authorizationURL),
     ("token_url", Val.vStr tokenURL),
     ("scopes", Val.vList (scopes.map Val.vStr))]
  | ScimAuthValue.serviceToken scheme clientID clientSecret =>
    [("scheme", Val.vStr scheme), ("client_id", Val.vStr clientID),
     ("client_secret", Val.vStr clientSecret)]

/-- convertScimConfigAuthenticationStructToSchema on the multiple-
authentication wrapper (the shape schemaToStruct always produces):
renders every entry through the single-entry converter. -/
def convertScimConfigAuthenticationStructToSchema
    (multi : List ScimAuthValue) : List (List (String × Val)) :=
  multi.map convertScimConfigSingleAuthentiationToSchema

/-! ## Teams-location endpoints: flattening and inflation
(resource_cloudflare_teams_location.go) -/

/-- cloudflare.TeamsLocationNetwork. -/
structure TeamsLocationNetwork where
  Network : String := ""
deriving Repr, DecidableEq

/-- cloudflare.TeamsLocationEndpointFields, the field set shared by the
ipv6, dot and doh endpoint kinds; AuthenticationEnabledUIHelper is the
server-computed hint flattening emits under authentication_enabled. -/
structure TeamsLocationEndpointFields where
  Enabled : Bool := false
  AuthenticationEnabledUIHelper : Bool := false
  Networks : List TeamsLocationNetwork := []
deriving Repr, DecidableEq

/-- cloudflare.TeamsLocationIPv4EndpointFields. -/
structure TeamsLocationIPv4EndpointFields where
  Enabled : Bool := false
  AuthenticationEnabled : Bool := false
deriving Repr, DecidableEq

/-- cloudflare.TeamsLocationIPv6EndpointFields. -/
structure TeamsLocationIPv6EndpointFields where
  base : TeamsLocationEndpointFields := {}
deriving Repr, DecidableEq

/-- cloudflare.TeamsLocationDotEndpointFields. -/
structure TeamsLocationDotEndpointFields where
  RequireToken : Bool := false
  base : TeamsLocationEndpointFields := {}
deriving Repr, DecidableEq

/-- cloudflare.TeamsLocationDohEndpointFields. -/
structure TeamsLocationDohEndpointFields where
  RequireToken : Bool := false
  base : TeamsLocationEndpointFields := {}
deriving Repr, DecidableEq

/-- cloudflare.TeamsLocationEndpoints: the four fixed endpoint kinds. -/
structure TeamsLocationEndpoints where
  IPv4Endpoint : TeamsLocationIPv4EndpointFields := {}
  IPv6Endpoint : TeamsLocationIPv6EndpointFields := {}
  DotEndpoint : TeamsLocationDotEndpointFields := {}
  DohEndpoint : TeamsLocationDohEndpointFields := {}
deriving Repr, DecidableEq

/-- flattenTeamsLocationNetworks: the set-shaped flattening used by
Read for the top-level networks attribute. -/
def flattenTeamsLocationNetworks (networks : List TeamsLocationNetwork) : Val :=
  Val.vList (networks.map (fun net => Val.vMap [("network", Val.vStr net.Network)]))

/-- flattenTeamsLocationNetworksIntoList: the list-shaped flattening
used inside the per-endpoint blocks (same element shape as the set
variant). -/
def flattenTeamsLocationNetworksIntoList (networks : List TeamsLocationNetwork) : Val :=
  Val.vList (networks.map (fun net => Val.vMap [("network", Val.vStr net.Network)]))

/-- flattenTeamsEndpointIpv4Field. -/
def flattenTeamsEndpointIpv4Field (field : TeamsLocationIPv4EndpointFields) : Val :=
  Val.vList [Val.vMap
    [("enabled", Val.vBool field.Enabled),
     ("authentication_enabled", Val.vBool field.AuthenticationEnabled)]]

/-- flattenTeamsEndpointIpv6Field. -/
def flattenTeamsEndpointIpv6Field (field : TeamsLocationIPv6EndpointFields) : Val :=
  Val.vList [Val.vMap
    [("enabled", Val.vBool field.base.Enabled),
     ("authentication_enabled", Val.vBool field.base.AuthenticationEnabledUIHelper),
     ("networks", flattenTeamsLocationNetworksIntoList field.base.Networks)]]

/-- flattenTeamsEndpointDOTField. -/
def flattenTeamsEndpointDOTField (field : TeamsLocationDotEndpointFields) : Val :=
  Val.vList [Val.vMap
    [("require_token", Val.vBool field.RequireToken),
     ("enabled", Val.vBool field.base.Enabled),
     ("authentication_enabled", Val.vBool field.base.AuthenticationEnabledUIHelper),
     ("networks", flattenTeamsLocationNetworksIntoList field.base.Networks)]]

/-- flattenTeamsEndpointDOHField. -/
def flattenTeamsEndpointDOHField (field : TeamsLocationDohEndpointFields) : Val :=
  Val.vList [Val.vMap
    [("require_token", Val.vBool field.RequireToken),
     ("enabled", Val.vBool field.base.Enabled),
     ("authentication_enabled", Val.vBool field.base.AuthenticationEnabledUIHelper),
     ("networks", flattenTeamsLocationNetworksIntoList field.base.Networks)]]

/-- flattenTeamsEndpoints: one top-level entry holding the four kind
lists. -/
def flattenTeamsEndpoints (endpoint : TeamsLocationEndpoints) : Val :=
  Val.vList [Val.vMap
    [("ipv4", flattenTeamsEndpointIpv4Field endpoint.IPv4Endpoint),
     ("ipv6", flattenTeamsEndpointIpv6Field endpoint.IPv6Endpoint),
     ("doh", flattenTeamsEndpointDOHField endpoint.DohEndpoint),
     ("dot", flattenTeamsEndpointDOTField endpoint.DotEndpoint)]]

/-- firstItemInSet: the source indexes element zero and asserts it to a
map without the comma-ok form, so an empty list or a non-map head is a
panic. -/
def firstItemInSet (l : List Val) : GoResult (List (String × Val)) :=
  match l with
  | v :: _ =>
    match v with
    | Val.vMap m => Except.ok m
    | _ => Except.error GoErr.panic
  | [] => Except.error GoErr.panic

/-- Element loop of inflateTeamsLocationNetworksFromList: a non-map
element is a reported error, and the network field is asserted to a
string without the comma-ok form. -/
def inflateNetworkList : List Val → GoResult (List TeamsLocationNetwork)
  | [] => Except.ok []
  | i :: rest =>
    match i with
    | Val.vMap network =>
      (match asStrPanic (mapLookup network "network") with
       | Except.error e => Except.error e
       | Except.ok s =>
         match inflateNetworkList rest with
         | Except.error e => Except.error e
         | Except.ok tail => Except.ok ({ Network := s } :: tail))
    | _ => Except.error (GoErr.err "error parsing network")

/-- inflateTeamsLocationNetworksFromList: a nil value yields the empty
slice without error; a non-nil non-list value is a reported error. -/
def inflateTeamsLocationNetworksFromList (networks : Val) :
    GoResult (List TeamsLocationNetwork) :=
  match networks with
  | Val.vNil => Except.ok []
  | Val.vList l => inflateNetworkList l
  | _ => Except.error (GoErr.err "error parsing network list")

/-- inflateIpv4Endpoint. -/
def inflateIpv4Endpoint (item : Val) : GoResult TeamsLocationIPv4EndpointFields :=
  match item with
  | Val.vList epItems =>
    (match firstItemInSet epItems with
     | Except.error e => Except.error e
     | Except.ok m =>
       match asBoolPanic (mapLookup m "enabled") with
       | Except.error e => Except.error e
       | Except.ok b => Except.ok { Enabled := b })
  | _ => Except.error (GoErr.err "error parsing endpoint item")

/-- inflateIpv6Endpoint. -/
def inflateIpv6Endpoint (item : Val) : GoResult TeamsLocationIPv6EndpointFields :=
  match item with
  | Val.vList epItems =>
    (match firstItemInSet epItems with
     | Except.error e => Except.error e
     | Except.ok epItem =>
       match wrapErr (inflateTeamsLocationNetworksFromList (mapLookup epItem "networks"))
           "error parsing endpoint ipv6 networks" with
       | Except.error e => Except.error e
       | Except.ok networks =>
         match asBoolPanic (mapLookup epItem "enabled") with
         | Except.error e => Except.error e
         | Except.ok b =>
           Except.ok { base := { Enabled := b, Networks := networks } })
  | _ => Except.error (GoErr.err "error parsing endpoint item")

/-- inflateDoTEndpoint. -/
def inflateDoTEndpoint (item : Val) : GoResult TeamsLocationDotEndpointFields :=
  match item with
  | Val.vList epItems =>
    (match firstItemInSet epItems with
     | Except.error e => Except.error e
     | Except.ok epItem =>
       match wrapErr (inflateTeamsLocationNetworksFromList (mapLookup epItem "networks"))
           "error parsing endpoint dot networks" with
       | Except.error e => Except.error e
       | Except.ok networks =>
         match asBoolPanic (mapLookup epItem "require_token") with
         | Except.error e => Except.error e
         | Except.ok rt =>
           match asBoolPanic (mapLookup epItem "enabled") with
           | Except.error e => Except.error e
           | Except.ok b =>
             Except.ok { RequireToken := rt, base := { Enabled := b, Networks := networks } })
  | _ => Except.error (GoErr.err "error parsing endpoint item")

/-- inflateDohEndpoint; the source reuses the dot wording in the
networks error message. -/
def inflateDohEndpoint (item : Val) : GoResult TeamsLocationDohEndpointFields :=
  match item with
  | Val.vList epItems =>
    (match firstItemInSet epItems with
     | Except.error e => Except.error e
     | Except.ok epItem =>
       match wrapErr (inflateTeamsLocationNetworksFromList (mapLookup epItem "networks"))
           "error parsing endpoint dot networks" with
       | Except.error e => Except.error e
       | Except.ok networks =>
         match asBoolPanic (mapLookup epItem "require_token") with
         | Except.error e => Except.error e
         | Except.ok rt =>
           match asBoolPanic (mapLookup epItem "enabled") with
           | Except.error e => Except.error e
           | Except.ok b =>
             Except.ok { RequireToken := rt, base := { Enabled := b, Networks := networks } })
  | _ => Except.error (GoErr.err "error parsing endpoint item")

/-- inflateTeamsLocationEndpoint: nil yields no endpoints without error;
the loop over the top-level list returns from its first iteration, so
only the first entry is ever read, and an empty list falls through to
the empty-endpoint error. -/
def inflateTeamsLocationEndpoint (endpoint : Val) :
    GoResult (Option TeamsLocationEndpoints) :=
  match endpoint with
  | Val.vNil => Except.ok none
  | Val.vList epList =>
    (match epList with
     | [] => Except.error (GoErr.err "empty endpoint")
     | i :: _ =>
       match i with
       | Val.vMap epItem =>
         (match wrapErr (inflateIpv4Endpoint (mapLookup epItem "ipv4"))
             "error parsing ipv4 endpoint" with
          | Except.error e => Except.error e
          | Except.ok ipv4 =>
            match wrapErr (inflateIpv6Endpoint (mapLookup epItem "ipv6"))
                "error parsing ipv6 endpoint" with
            | Except.error e => Except.error e
            | Except.ok ipv6 =>
              match wrapErr (inflateDoTEndpoint (mapLookup epItem "dot"))
                  "error parsing dot endpoint" with
              | Except.error e => Except.error e
              | Except.ok dot =>
                match wrapErr (inflateDohEndpoint (mapLookup epItem "doh"))
                    "error parsing doh endpoint" with
                | Except.error e => Except.error e
                | Except.ok doh =>
                  Except.ok (some
                    { IPv4Endpoint := ipv4, IPv6Endpoint := ipv6
                      DotEndpoint := dot, DohEndpoint := doh }))
       | _ => Except.error (GoErr.err "error parsing endpoint"))
  | _ => Except.error (GoErr.err "error parsing endpoint list")

/-- Replace the binding of one key in an attribute map, keeping every
other binding and the order; used to state that inflation ignores a
key. -/
def setMapKey (m : List (String × Val)) (k : String) (v : Val) : List (String × Val) :=
  m.map (fun p => if p.1 == k then (p.1, v) else p)

/-- Rewrite the authentication_enabled binding of every per-kind block
of a flattened endpoints tree to an arbitrary value, leaving everything
else untouched. -/
def overrideAuthEnabled (t : Val) (v : Val) : Val :=
  match t with
  | Val.vList [Val.vMap items] =>
    Val.vList [Val.vMap (items.map (fun kv =>
      match kv.2 with
      | Val.vList [Val.vMap m] =>
        (kv.1, Val.vList [Val.vMap (setMapKey m "authentication_enabled" v)])
      | _ => kv))]
  | _ => t

/-! ## Teams-location CRUD handlers -/

/-- cloudflare.TeamsLocation with the fields Read stores; pointer-typed
SDK fields that Read always dereferences or hands to Set are carried as
plain values. -/
structure TeamsLocation where
  ID : String := ""
  Name : String := ""
  Networks : List TeamsLocationNetwork := []
  Ip : String := ""
  Subdomain : String := ""
  AnonymizedLogsEnabled : Bool := false
  IPv4Destination : String := ""
  IPv4DestinationBackup : String := ""
  ClientDefault : Bool := false
  ECSSupport : Bool := false
  DNSDestinationIPv6BlockID : String := ""
  DNSDestinationIPsID : String := ""
  Endpoints : TeamsLocationEndpoints := {}
deriving Repr

/-- Modelled from the spec: the external API client collaborator, with
the lookup call returning either the location or an error message, and
the delete call returning an optional error message. -/
structure API where
  teamsLocation : String → String → Except String TeamsLocation
  deleteTeamsLocation : String → String → Option String

/-- One outbound call made by a handler, recorded for the call trace. -/
inductive ApiCall where
  | getLoc (accountID id : String) : ApiCall
  | delLoc (accountID id : String) : ApiCall
deriving Repr, DecidableEq

/-- Whether a recorded call is the lookup performed by Read. -/
def ApiCall.isGet : ApiCall → Bool
  | ApiCall.getLoc _ _ => true
  | ApiCall.delLoc _ _ => false

/-- Modelled from the spec: consts.AccountIDSchemaKey, the attribute
key holding the account scope. -/
def accountIDKey : String := "account_id"

/-- The mutable resource data of the provider framework: the resource
identifier plus the attribute store. -/
structure ResourceData where
  id : String := ""
  attrs : List (String × Val) := []
deriving Repr

/-- The d.Set call of the framework; for schema-conformant values the
call cannot fail, so the error branches guarding each Set in the source
are dead and the update is total.  Overwriting is by shadowing: lookups
read the most recent binding of a key. -/
def setAttr (d : ResourceData) (k : String) (v : Val) : ResourceData :=
  { d with attrs := (k, v) :: d.attrs }

/-- The d.Get call for a string attribute: the zero value when
absent. -/
def getAttrString (d : ResourceData) (k : String) : String :=
  match mapLookup d.attrs k with
  | Val.vStr s => s
  | _ => ""

/-- Outcome of a CRUD handler: the mutated resource data, the
diagnostics (none when the handler returns nil), and the trace of
outbound API calls in order. -/
structure HandlerResult where
  d : ResourceData
  diags : Option String
  calls : List ApiCall
deriving Repr

/-- resourceCloudflareTeamsLocationRead: fetches by identifier; an
error whose message contains the invalid-identifier substring clears
the identifier and reports no error, any other error is surfaced; on
success every derived attribute is stored. -/
def resourceCloudflareTeamsLocationRead (client : API) (d : ResourceData) :
    HandlerResult :=
  let accountID := getAttrString d accountIDKey
  let call := ApiCall.getLoc accountID d.id
  match client.teamsLocation accountID d.id with
  | Except.error e =>
    if strContains e "Location ID is invalid" then
      { d := { d with id := "" }, diags := none
        calls := [call] }
    else
      { d := d
        diags := some ("error finding Teams Location \"" ++ d.id ++ "\": " ++ e)
        calls := [call] }
  | Except.ok location =>
    let d := setAttr d "name" (Val.vStr location.Name)
    let d := setAttr d "networks" (flattenTeamsLocationNetworks location.Networks)
    let d := setAttr d "ip" (Val.vStr location.Ip)
    let d := setAttr d "doh_subdomain" (Val.vStr location.Subdomain)
    let d := setAttr d "anonymized_logs_enabled" (Val.vBool location.AnonymizedLogsEnabled)
    let d := setAttr d "ipv4_destination" (Val.vStr location.IPv4Destination)
    let d := setAttr d "ipv4_destination_backup" (Val.vStr location.IPv4DestinationBackup)
    let d := setAttr d "client_default" (Val.vBool location.ClientDefault)
    let d := setAttr d "ecs_support" (Val.vBool location.ECSSupport)
    let d := setAttr d "dns_destination_ipv6_block_id" (Val.vStr location.DNSDestinationIPv6BlockID)
    let d := setAttr d "dns_destination_ips_id" (Val.vStr location.DNSDestinationIPsID)
    let d := setAttr d "endpoints" (flattenTeamsEndpoints location.Endpoints)
    { d := d, diags := none, calls := [call] }

/-- resourceCloudflareTeamsLocationDelete: calls the delete endpoint;
on error the wrapped error is returned immediately, on success the
handler delegates to Read. -/
def resourceCloudflareTeamsLocationDelete (client : API) (d : ResourceData) :
    HandlerResult :=
  let id := d.id
  let accountID := getAttrString d accountIDKey
  match client.deleteTeamsLocation accountID id with
  | some e =>
    { d := d
      diags := some ("error deleting Teams Location for account \"" ++ accountID ++ "\": " ++ e)
      calls := [ApiCall.delLoc accountID id] }
  | none =>
    let r := resourceCloudflareTeamsLocationRead client d
    { r with calls := ApiCall.delLoc accountID id :: r.calls }

/-- Tail of strings.SplitN with separator slash and limit two: scan for
the first separator, keeping the characters passed so far in reverse
order in the accumulator. -/
def splitN2Aux (acc : List Char) : List Char → List String
  | [] => [String.mk acc.reverse]
  | c :: cs =>
    if c = '/' then [String.mk acc.reverse, String.mk cs]
    else splitN2Aux (c :: acc) cs

/-- strings.SplitN on the slash separator with limit two: one part when
no separator occurs, otherwise the prefix before the first separator
and the whole remainder. -/
def splitN2 (s : String) : List String :=
  splitN2Aux [] s.toList

/-- resourceCloudflareTeamsLocationImport: splits the compound
identifier, rejecting inputs without exactly two parts, seeds the
account attribute and the identifier, delegates to Read (discarding the
diagnostics of Read, as the source does), and returns the mutated
resource data; the call trace is paired with the result so that the
absence of a Read on the failure path is observable. -/
def resourceCloudflareTeamsLocationImport (client : API) (d : ResourceData) :
    Except String ResourceData × List ApiCall :=
  match splitN2 d.id with
  | [accountID, teamsLocationID] =>
    let d := setAttr d accountIDKey (Val.vStr accountID)
    let d := { d with id := teamsLocationID }
    let r := resourceCloudflareTeamsLocationRead client d
    (Except.ok r.d, r.calls)
  | _ =>
    (Except.error ("invalid id (\"" ++ d.id ++
      "\") specified, should be in format \"accountID/teamsLocationID\""), [])

/-! ## Theorems -/

/-- Evaluation of the CORS converter on a present block: the GetOk
guards collapse and the three validations read the block fields
directly. -/
theorem convertCORS_eq_of_some (d : AccessAppResourceData) (ch : CorsHeadersBlock)
    (hch : d.cors_headers = some ch) :
    convertCORSSchemaToStruct d =
      (if ch.allow_credentials && (contains ch.allowed_origins "*" || ch.allow_all_origins) then
        Except.error "CORS credentials are not permitted when all origins are allowed"
      else if (ch.allow_all_origins || ch.allowed_origins.length > 1)
           && (ch.allow_all_methods == false && ch.allowed_methods.length == 0) then
        Except.error "must set allowed_methods or allow_all_methods"
      else if (ch.allow_all_methods || ch.allowed_methods.length > 1)
           && (ch.allow_all_origins == false && ch.allowed_origins.length == 0) then
        Except.error "must set allowed_origins or allow_all_origins"
      else
        Except.ok
          { AllowedMethods := ch.allowed_methods
            AllowedHeaders := ch.allowed_headers
            AllowedOrigins := ch.allowed_origins
            AllowAllMethods := ch.allow_all_methods
            AllowAllHeaders := ch.allow_all_headers
            AllowAllOrigins := ch.allow_all_origins
            AllowCredentials := ch.allow_credentials
            MaxAge := ch.max_age }) := by
  unfold convertCORSSchemaToStruct
  rw [hch]
  rcases ch with ⟨ams, ahs, aos, aam, aah, aao, acr, mage⟩
  cases ams <;> cases ahs <;> cases aos <;> simp [contains]

/-- C1: with a cors_headers block present and allow_credentials set,
the converter rejects a wildcard origin configuration (allow_all_origins
or an explicit star origin) with a validation error, and succeeds with
the assembled struct when the origins are explicit and non-wildcard and
the two origin/method completeness rules hold. -/
theorem cors_credentials_origin_rule (d : AccessAppResourceData) (ch : CorsHeadersBlock)
    (hch : d.cors_headers = some ch) (hcred : ch.allow_credentials = true) :
    ((ch.allow_all_origins = true ∨ ch.allowed_origins.contains "*" = true) →
       convertCORSSchemaToStruct d =
         Except.error "CORS credentials are not permitted when all origins are allowed") ∧
    (ch.allow_all_origins = false → ch.allowed_origins.contains "*" = false →
     (ch.allowed_origins.length > 1 →
        ch.allow_all_methods = true ∨ ch.allowed_methods ≠ []) →
     ((ch.allow_all_methods = true ∨ ch.allowed_methods.length > 1) →
        ch.allowed_origins ≠ []) →
     convertCORSSchemaToStruct d = Except.ok
       { AllowedMethods := ch.allowed_methods
         AllowedHeaders := ch.allowed_headers
         AllowedOrigins := ch.allowed_origins
         AllowAllMethods := ch.allow_all_methods
         AllowAllHeaders := ch.allow_all_headers
         AllowAllOrigins := ch.allow_all_origins
         AllowCredentials := ch.allow_credentials
         MaxAge := ch.max_age }) := by
  rw [convertCORS_eq_of_some d ch hch]
  constructor
  · rintro (h | h)
    · have hcond : (ch.allow_credentials
          && (contains ch.allowed_origins "*" || ch.allow_all_origins)) = true := by
        simp [hcred, h]
      rw [hcond, if_pos rfl]
    · have hcond : (ch.allow_credentials
          && (contains ch.allowed_origins "*" || ch.allow_all_origins)) = true := by
        simp only [contains, hcred, h, Bool.true_and, Bool.true_or]
      rw [hcond, if_pos rfl]
  · intro h1 h2 h3 h4
    have hcond1 : (ch.allow_credentials
        && (contains ch.allowed_origins "*" || ch.allow_all_origins)) = false := by
      simp only [contains, h1, h2, Bool.or_false, Bool.and_false]
    have hcond2 : ((ch.allow_all_origins || ch.allowed_origins.length > 1)
        && (ch.allow_all_methods == false && ch.allowed_methods.length == 0)) = false := by
      rcases Nat.lt_or_ge 1 ch.allowed_origins.length with hlen | hlen
      · rcases h3 hlen with hm | hm
        · simp [hm]
        · simp [h1, List.length_eq_zero, hm]
      · simp [h1, Nat.not_lt.mpr hlen]
    have hcond3 : ((ch.allow_all_methods || ch.allowed_methods.length > 1)
        && (ch.allow_all_origins == false && ch.allowed_origins.length == 0)) = false := by
      by_cases hl : ch.allow_all_methods = true ∨ ch.allowed_methods.length > 1
      · have := h4 hl
        simp [List.length_eq_zero, this]
      · push_neg at hl
        simp [hl.1, Nat.not_lt.mpr (Nat.not_lt.mp (by simpa using hl.2))]
    rw [hcond1, hcond2, hcond3]
    rw [if_neg Bool.false_ne_true, if_neg Bool.false_ne_true, if_neg Bool.false_ne_true]

/-- Witness for C1: a credentials-plus-allow-all-origins block is
rejected. -/
theorem cors_credentials_origin_rule_witness :
    convertCORSSchemaToStruct
      { cors_headers := some { allow_credentials := true, allow_all_origins := true } } =
      Except.error "CORS credentials are not permitted when all origins are allowed" :=
  (cors_credentials_origin_rule
    { cors_headers := some { allow_credentials := true, allow_all_origins := true } }
    { allow_credentials := true, allow_all_origins := true } rfl rfl).1 (Or.inl rfl)

/-- C2: with a cors_headers block present, more than one explicit
origin (or allow_all_origins) together with no methods at all is a
validation error, and symmetrically more than one explicit method (or
allow_all_methods) together with no origins at all is a validation
error. -/
theorem cors_completeness_rules (d : AccessAppResourceData) (ch : CorsHeadersBlock)
    (hch : d.cors_headers = some ch) :
    ((ch.allow_all_origins = true ∨ ch.allowed_origins.length > 1) →
     ch.allow_all_methods = false → ch.allowed_methods = [] →
       ∃ msg, convertCORSSchemaToStruct d = Except.error msg) ∧
    ((ch.allow_all_methods = true ∨ ch.allowed_methods.length > 1) →
     ch.allow_all_origins = false → ch.allowed_origins = [] →
       convertCORSSchemaToStruct d = Except.error "must set allowed_origins or allow_all_origins") := by
  rw [convertCORS_eq_of_some d ch hch]
  constructor
  · intro h1 h2 h3
    by_cases hc : (ch.allow_credentials
        && (contains ch.allowed_origins "*" || ch.allow_all_origins)) = true
    · exact ⟨_, if_pos hc⟩
    · have hcond2 : ((ch.allow_all_origins || ch.allowed_origins.length > 1)
          && (ch.allow_all_methods == false && ch.allowed_methods.length == 0)) = true := by
        rcases h1 with h | h <;> simp [h, h2, h3]
      refine ⟨"must set allowed_methods or allow_all_methods", ?_⟩
      rw [if_neg hc, hcond2, if_pos rfl]
  · intro h1 h2 h3
    have hcond1 : (ch.allow_credentials
        && (contains ch.allowed_origins "*" || ch.allow_all_origins)) = false := by
      simp [contains, h2, h3]
    have hcond2 : ((ch.allow_all_origins || ch.allowed_origins.length > 1)
        && (ch.allow_all_methods == false && ch.allowed_methods.length == 0)) = false := by
      simp [h2, h3]
    have hcond3 : ((ch.allow_all_methods || ch.allowed_methods.length > 1)
        && (ch.allow_all_origins == false && ch.allowed_origins.length == 0)) = true := by
      rcases h1 with h | h <;> simp [h, h2, h3]
    rw [hcond1, hcond2, hcond3]
    rw [if_neg Bool.false_ne_true, if_neg Bool.false_ne_true, if_pos rfl]

/-- Witness for C2: allow_all_origins with no methods yields an
error. -/
theorem cors_completeness_rules_witness :
    ∃ msg, convertCORSSchemaToStruct
      { cors_headers := some { allow_all_origins := true } } = Except.error msg :=
  (cors_completeness_rules
    { cors_headers := some { allow_all_origins := true } }
    { allow_all_origins := true } rfl).1 (Or.inl rfl) rfl rfl

/-- AuthType of the OIDC assembly is always the OIDC constant. -/
theorem convertSaasOIDC_authType (d : AccessAppResourceData) :
    (convertSaasOIDCSchemaToStruct d).AuthType = saasAuthTypeOIDC := by
  simp only [convertSaasOIDCSchemaToStruct]
  split <;> split <;> split <;> rfl

/-- AuthType of the SAML assembly is always the SAML constant. -/
theorem convertSaasSAML_authType (d : AccessAppResourceData) :
    (convertSaasSAMLSchemaToStruct d).AuthType = saasAuthTypeSAML := by
  simp only [convertSaasSAMLSchemaToStruct]
  split <;> rfl

/-- C10: the SAAS converter produces the OIDC variant exactly when the
auth_type attribute equals oidc, and the SAML variant on every other
value, including the zero value read when the block or the attribute is
absent; absence yields neither an error nor an empty result. -/
theorem saas_auth_type_dispatch (d : AccessAppResourceData) :
    ((convertSaasSchemaToStruct d).AuthType = saasAuthTypeOIDC ↔
       (saasBlock d).auth_type = "oidc") ∧
    ((saasBlock d).auth_type ≠ "oidc" →
       convertSaasSchemaToStruct d = convertSaasSAMLSchemaToStruct d ∧
       (convertSaasSchemaToStruct d).AuthType = saasAuthTypeSAML) ∧
    (d.saas_app = none → (convertSaasSchemaToStruct d).AuthType = saasAuthTypeSAML) := by
  by_cases h : (saasBlock d).auth_type = "oidc"
  · have he : convertSaasSchemaToStruct d = convertSaasOIDCSchemaToStruct d := by
      unfold convertSaasSchemaToStruct
      rw [if_pos (by simp [h])]
    refine ⟨?_, fun hc => absurd h hc, ?_⟩
    · rw [he, convertSaasOIDC_authType]
      simp [h]
    · intro hn
      exfalso
      have hb : saasBlock d = {} := by simp [saasBlock, hn]
      rw [hb] at h
      exact absurd h (by decide)
  · have he : convertSaasSchemaToStruct d = convertSaasSAMLSchemaToStruct d := by
      unfold convertSaasSchemaToStruct
      rw [if_neg (by simp [h])]
    refine ⟨?_, fun _ => ⟨he, by rw [he, convertSaasSAML_authType]⟩, ?_⟩
    · rw [he, convertSaasSAML_authType]
      constructor
      · intro hs
        exact absurd hs (by decide)
      · intro hs
        exact absurd hs h
    · intro _
      rw [he, convertSaasSAML_authType]

/-- Witness for C10: with no saas_app block at all the converter yields
the SAML variant. -/
theorem saas_auth_type_dispatch_witness :
    (convertSaasSchemaToStruct {}).AuthType = saasAuthTypeSAML :=
  (saas_auth_type_dispatch {}).2.2 rfl

/-- C7 failing-input evaluation: an entry listing two target_attributes
blocks is converted to a context whose attribute map holds only the
last block; the entry for the first block is absent. -/
theorem target_attributes_last_block_only :
    convertTargetContextsToStruct
      { target_criteria :=
          [{ port := 22
             protocol := "SSH"
             target_attributes :=
               [{ name := "a", values := ["u1"] },
                { name := "b", values := ["u2"] }] }] } =
      Except.ok
        [{ Port := 22
           Protocol := "SSH"
           TargetAttributes := [("b", ["u2"])] }] := by
  rfl

/-- C8: a single oauth2 authentication entry survives the struct
round-trip with client id, client secret, authorization URL, token URL
and scopes intact, and the resulting attribute map carries no user,
password or token field. -/
theorem scim_oauth2_roundtrip (u p t cid csec aurl turl : String) (scopes : List String) :
    convertScimConfigAuthenticationStructToSchema
      (convertScimConfigAuthenticationSchemaToStruct
        [{ scheme := "oauth2", user := u, password := p, token := t,
           client_id := cid, client_secret := csec,
           authorization_url := aurl, token_url := turl, scopes := scopes }]) =
      [[("scheme", Val.vStr "oauth2"), ("client_id", Val.vStr cid),
        ("client_secret", Val.vStr csec), ("authorization_url", Val.vStr aurl),
        ("token_url", Val.vStr turl), ("scopes", Val.vList (scopes.map Val.vStr))]] ∧
    (∀ m ∈ convertScimConfigAuthenticationStructToSchema
        (convertScimConfigAuthenticationSchemaToStruct
          [{ scheme := "oauth2", user := u, password := p, token := t,
             client_id := cid, client_secret := csec,
             authorization_url := aurl, token_url := turl, scopes := scopes }]),
      m.find? (fun q => q.1 == "user") = none ∧
      m.find? (fun q => q.1 == "password") = none ∧
      m.find? (fun q => q.1 == "token") = none) := by
  refine ⟨rfl, ?_⟩
  intro m hm
  have he : convertScimConfigAuthenticationStructToSchema
      (convertScimConfigAuthenticationSchemaToStruct
        [{ scheme := "oauth2", user := u, password := p, token := t,
           client_id := cid, client_secret := csec,
           authorization_url := aurl, token_url := turl, scopes := scopes }]) =
      [[("scheme", Val.vStr "oauth2"), ("client_id", Val.vStr cid),
        ("client_secret", Val.vStr csec), ("authorization_url", Val.vStr aurl),
        ("token_url", Val.vStr turl), ("scopes", Val.vList (scopes.map Val.vStr))]] := rfl
  rw [he] at hm
  have hm' := List.mem_singleton.mp hm
  rw [hm']
  exact ⟨rfl, rfl, rfl⟩

/-- Witness for C8: the membership hypothesis discharged on the
concrete round-trip output of a concrete oauth2 entry. -/
theorem scim_oauth2_roundtrip_witness :
    ([("scheme", Val.vStr "oauth2"), ("client_id", Val.vStr "cid"),
      ("client_secret", Val.vStr "csec"), ("authorization_url", Val.vStr "aurl"),
      ("token_url", Val.vStr "turl"),
      ("scopes", Val.vList (["s"].map Val.vStr))] : List (String × Val)).find?
        (fun q => q.1 == "user") = none ∧
    ([("scheme", Val.vStr "oauth2"), ("client_id", Val.vStr "cid"),
      ("client_secret", Val.vStr "csec"), ("authorization_url", Val.vStr "aurl"),
      ("token_url", Val.vStr "turl"),
      ("scopes", Val.vList (["s"].map Val.vStr))] : List (String × Val)).find?
        (fun q => q.1 == "password") = none ∧
    ([("scheme", Val.vStr "oauth2"), ("client_id", Val.vStr "cid"),
      ("client_secret", Val.vStr "csec"), ("authorization_url", Val.vStr "aurl"),
      ("token_url", Val.vStr "turl"),
      ("scopes", Val.vList (["s"].map Val.vStr))] : List (String × Val)).find?
        (fun q => q.1 == "token") = none := by
  have h := scim_oauth2_roundtrip "u" "p" "t" "cid" "csec" "aurl" "turl" ["s"]
  exact h.2 _ (by rw [h.1]; exact List.mem_singleton.mpr rfl)

/-- Read records exactly one outbound call, the lookup on the account
scope and the current identifier, in every branch. -/
theorem read_calls (client : API) (d : ResourceData) :
    (resourceCloudflareTeamsLocationRead client d).calls =
      [ApiCall.getLoc (getAttrString d accountIDKey) d.id] := by
  unfold resourceCloudflareTeamsLocationRead
  dsimp only
  cases hc : client.teamsLocation (getAttrString d accountIDKey) d.id with
  | error e =>
    dsimp only
    split <;> rfl
  | ok location => rfl

/-- A string lookup under a different key is unaffected by setAttr. -/
theorem getAttrString_setAttr_ne (d : ResourceData) (k k' : String) (v : Val)
    (h : (k == k') = false) :
    getAttrString (setAttr d k v) k' = getAttrString d k' := by
  unfold getAttrString setAttr mapLookup
  simp [List.find?_cons, h]

/-- A string lookup under the key just set reads the new value. -/
theorem getAttrString_setAttr_same (d : ResourceData) (k s : String) :
    getAttrString (setAttr d k (Val.vStr s)) k = s := by
  unfold getAttrString setAttr mapLookup
  simp [List.find?_cons]

/-- setAttr never changes the resource identifier. -/
theorem setAttr_id (d : ResourceData) (k : String) (v : Val) :
    (setAttr d k v).id = d.id := rfl

/-- On a successful lookup Read keeps the resource identifier. -/
theorem read_ok_id (client : API) (d : ResourceData) (loc : TeamsLocation)
    (h : client.teamsLocation (getAttrString d accountIDKey) d.id = Except.ok loc) :
    (resourceCloudflareTeamsLocationRead client d).d.id = d.id := by
  unfold resourceCloudflareTeamsLocationRead
  dsimp only
  rw [h]
  rfl

/-- Read never rebinds the account attribute. -/
theorem read_account (client : API) (d : ResourceData) :
    getAttrString (resourceCloudflareTeamsLocationRead client d).d accountIDKey =
      getAttrString d accountIDKey := by
  unfold resourceCloudflareTeamsLocationRead
  dsimp only
  cases hc : client.teamsLocation (getAttrString d accountIDKey) d.id with
  | error e =>
    dsimp only
    split <;> rfl
  | ok location =>
    dsimp only
    rw [getAttrString_setAttr_ne _ _ _ _ (by decide),
      getAttrString_setAttr_ne _ _ _ _ (by decide),
      getAttrString_setAttr_ne _ _ _ _ (by decide),
      getAttrString_setAttr_ne _ _ _ _ (by decide),
      getAttrString_setAttr_ne _ _ _ _ (by decide),
      getAttrString_setAttr_ne _ _ _ _ (by decide),
      getAttrString_setAttr_ne _ _ _ _ (by decide),
      getAttrString_setAttr_ne _ _ _ _ (by decide),
      getAttrString_setAttr_ne _ _ _ _ (by decide),
      getAttrString_setAttr_ne _ _ _ _ (by decide),
      getAttrString_setAttr_ne _ _ _ _ (by decide),
      getAttrString_setAttr_ne _ _ _ _ (by decide)]

/-- C4: when the lookup fails with a message containing the
invalid-identifier substring, Read clears the identifier and reports no
error; on any other failure it surfaces the wrapped error and keeps the
identifier. -/
theorem read_error_classification (client : API) (d : ResourceData) (e : String)
    (herr : client.teamsLocation (getAttrString d accountIDKey) d.id = Except.error e) :
    (strContains e "Location ID is invalid" = true →
       (resourceCloudflareTeamsLocationRead client d).diags = none ∧
       (resourceCloudflareTeamsLocationRead client d).d.id = "") ∧
    (strContains e "Location ID is invalid" = false →
       (resourceCloudflareTeamsLocationRead client d).diags =
         some ("error finding Teams Location \"" ++ d.id ++ "\": " ++ e) ∧
       (resourceCloudflareTeamsLocationRead client d).d.id = d.id) := by
  unfold resourceCloudflareTeamsLocationRead
  dsimp only
  rw [herr]
  dsimp only
  constructor
  · intro hy
    rw [if_pos hy]
    exact ⟨rfl, rfl⟩
  · intro hn
    rw [if_neg (by simp [hn])]
    exact ⟨rfl, rfl⟩

/-- Witness for C4: a client reporting the invalid-identifier message
makes Read clear the identifier without error. -/
theorem read_error_classification_witness :
    (resourceCloudflareTeamsLocationRead
      { teamsLocation := fun _ _ => Except.error "Location ID is invalid"
        deleteTeamsLocation := fun _ _ => none }
      { id := "loc1", attrs := [("account_id", Val.vStr "acct")] }).diags = none ∧
    (resourceCloudflareTeamsLocationRead
      { teamsLocation := fun _ _ => Except.error "Location ID is invalid"
        deleteTeamsLocation := fun _ _ => none }
      { id := "loc1", attrs := [("account_id", Val.vStr "acct")] }).d.id = "" :=
  (read_error_classification
    { teamsLocation := fun _ _ => Except.error "Location ID is invalid"
      deleteTeamsLocation := fun _ _ => none }
    { id := "loc1", attrs := [("account_id", Val.vStr "acct")] }
    "Location ID is invalid" rfl).1 (by decide)

/-- Counterexample for C3 as stated: a delete call that fails produces
no lookup call at all, so Read is not performed on the error path. -/
theorem delete_failure_skips_read_cx :
    (resourceCloudflareTeamsLocationDelete
      { teamsLocation := fun _ _ => Except.error "x"
        deleteTeamsLocation := fun _ _ => some "boom" }
      { id := "loc1", attrs := [("account_id", Val.vStr "acct")] }).calls =
      [ApiCall.delLoc "acct" "loc1"] ∧
    ((resourceCloudflareTeamsLocationDelete
      { teamsLocation := fun _ _ => Except.error "x"
        deleteTeamsLocation := fun _ _ => some "boom" }
      { id := "loc1", attrs := [("account_id", Val.vStr "acct")] }).calls.any
        ApiCall.isGet) = false := by
  exact ⟨rfl, rfl⟩

/-- C3 amended: Delete delegates to Read only after the external delete
call succeeds; when the delete call fails, the handler surfaces the
wrapped error and performs no Read. -/
theorem delete_reads_only_on_success (client : API) (d : ResourceData) :
    (client.deleteTeamsLocation (getAttrString d accountIDKey) d.id = none →
       (resourceCloudflareTeamsLocationDelete client d).calls =
         ApiCall.delLoc (getAttrString d accountIDKey) d.id ::
           (resourceCloudflareTeamsLocationRead client d).calls ∧
       ((resourceCloudflareTeamsLocationDelete client d).calls.any ApiCall.isGet) = true) ∧
    (∀ e, client.deleteTeamsLocation (getAttrString d accountIDKey) d.id = some e →
       (resourceCloudflareTeamsLocationDelete client d).diags =
         some ("error deleting Teams Location for account \"" ++
           getAttrString d accountIDKey ++ "\": " ++ e) ∧
       ((resourceCloudflareTeamsLocationDelete client d).calls.any ApiCall.isGet) = false) := by
  constructor
  · intro hok
    have he : (resourceCloudflareTeamsLocationDelete client d).calls =
        ApiCall.delLoc (getAttrString d accountIDKey) d.id ::
          (resourceCloudflareTeamsLocationRead client d).calls := by
      unfold resourceCloudflareTeamsLocationDelete
      dsimp only
      rw [hok]
    refine ⟨he, ?_⟩
    rw [he, read_calls]
    rfl
  · intro e herr
    have he : resourceCloudflareTeamsLocationDelete client d =
        { d := d
          diags := some ("error deleting Teams Location for account \"" ++
            getAttrString d accountIDKey ++ "\": " ++ e)
          calls := [ApiCall.delLoc (getAttrString d accountIDKey) d.id] } := by
      unfold resourceCloudflareTeamsLocationDelete
      dsimp only
      rw [herr]
    rw [he]
    exact ⟨rfl, rfl⟩

/-- Scanning for a single character finds exactly the lists holding
it. -/
theorem not_mem_of_hasSub_single (c : Char) (cs : List Char)
    (h : hasSub [c] cs = false) : c ∉ cs := by
  induction cs with
  | nil => simp
  | cons x xs ih =>
    simp only [hasSub, List.isPrefixOf, Bool.or_eq_false_iff,
      Bool.and_eq_false_iff] at h
    rcases h with ⟨h1, h2⟩
    have hx : ¬ c = x := by
      rcases h1 with h1 | h1
      · simpa using h1
      · simp [List.isPrefixOf] at h1
    simp only [List.mem_cons, not_or]
    exact ⟨hx, ih h2⟩

/-- splitN2Aux on separator-free input returns the single full part. -/
theorem splitN2Aux_no_sep (acc : List Char) (cs : List Char) (h : '/' ∉ cs) :
    splitN2Aux acc cs = [String.mk (acc.reverse ++ cs)] := by
  induction cs generalizing acc with
  | nil => simp [splitN2Aux]
  | cons c cs ih =>
    have hc : ¬ c = '/' := by
      intro hh
      exact h (by simp [hh])
    rw [splitN2Aux, if_neg hc, ih _ (by intro hm; exact h (by simp [hm]))]
    simp

/-- splitN2Aux splits at the first separator. -/
theorem splitN2Aux_sep (a : List Char) (acc b : List Char) (h : '/' ∉ a) :
    splitN2Aux acc (a ++ '/' :: b) = [String.mk (acc.reverse ++ a), String.mk b] := by
  induction a generalizing acc with
  | nil => simp [splitN2Aux]
  | cons c a ih =>
    have hc : ¬ c = '/' := by
      intro hh
      exact h (by simp [hh])
    rw [List.cons_append, splitN2Aux, if_neg hc,
      ih _ (by intro hm; exact h (by simp [hm]))]
    simp

/-- splitN2 on an identifier without a slash yields one part. -/
theorem splitN2_no_sep (s : String) (h : strContains s "/" = false) :
    splitN2 s = [s] := by
  have h' : '/' ∉ s.toList := not_mem_of_hasSub_single _ _ h
  unfold splitN2
  rw [splitN2Aux_no_sep [] _ h']
  simp [String.toList]

/-- splitN2 on a compound identifier whose first part is slash-free
yields the two parts. -/
theorem splitN2_eq_pair (a b : String) (ha : strContains a "/" = false) :
    splitN2 (a ++ "/" ++ b) = [a, b] := by
  have ha' : '/' ∉ a.toList := not_mem_of_hasSub_single _ _ ha
  have hdata : (a ++ "/" ++ b).toList = a.toList ++ '/' :: b.toList := by
    show (a ++ "/" ++ b).data = a.data ++ '/' :: b.data
    rw [String.data_append, String.data_append]
    simp
  unfold splitN2
  rw [hdata, splitN2Aux_sep _ _ _ ha']
  simp [String.toList]

/-- C5: an import identifier with a slash is split on the first slash,
the first part becomes the account attribute and the second the
resource identifier handed to Read (observable in the call trace and,
when the lookup succeeds, in the final identifier); an identifier
without a slash fails with the descriptive error and performs no
call. -/
theorem import_identifier_split (client : API) (d : ResourceData) (a b : String) :
    (d.id = a ++ "/" ++ b → strContains a "/" = false →
       ∃ r, (resourceCloudflareTeamsLocationImport client d).1 = Except.ok r ∧
         getAttrString r accountIDKey = a ∧
         (resourceCloudflareTeamsLocationImport client d).2 = [ApiCall.getLoc a b] ∧
         (∀ loc, client.teamsLocation a b = Except.ok loc → r.id = b)) ∧
    (strContains d.id "/" = false →
       resourceCloudflareTeamsLocationImport client d =
         (Except.error ("invalid id (\"" ++ d.id ++
           "\") specified, should be in format \"accountID/teamsLocationID\""), [])) := by
  constructor
  · intro hid hx
    have hsplit : splitN2 d.id = [a, b] := by
      rw [hid]
      exact splitN2_eq_pair a b hx
    unfold resourceCloudflareTeamsLocationImport
    rw [hsplit]
    dsimp only
    set d2 : ResourceData := { setAttr d accountIDKey (Val.vStr a) with id := b } with hd2
    have hacc : getAttrString d2 accountIDKey = a := by
      rw [hd2]
      simp [getAttrString, setAttr, mapLookup]
    refine ⟨(resourceCloudflareTeamsLocationRead client d2).d, rfl, ?_, ?_, ?_⟩
    · rw [read_account, hacc]
    · rw [read_calls, hacc]
    · intro loc hloc
      have hid2 : d2.id = b := rfl
      have := read_ok_id client d2 loc (by rw [hacc, hid2]; exact hloc)
      rw [this]
  · intro hx
    have hsplit : splitN2 d.id = [d.id] := splitN2_no_sep d.id hx
    unfold resourceCloudflareTeamsLocationImport
    rw [hsplit]

/-- Witness for C5: a well-formed compound identifier is split into
account and location identifier and Read is invoked on them. -/
theorem import_identifier_split_witness :
    ∃ r, (resourceCloudflareTeamsLocationImport
      { teamsLocation := fun _ _ => Except.ok {}
        deleteTeamsLocation := fun _ _ => none }
      { id := "acct123/loc456", attrs := [] }).1 = Except.ok r ∧
      getAttrString r accountIDKey = "acct123" ∧
      (resourceCloudflareTeamsLocationImport
        { teamsLocation := fun _ _ => Except.ok {}
          deleteTeamsLocation := fun _ _ => none }
        { id := "acct123/loc456", attrs := [] }).2 =
        [ApiCall.getLoc "acct123" "loc456"] ∧
      (∀ loc : TeamsLocation,
         (Except.ok ({} : TeamsLocation) : Except String TeamsLocation) =
           Except.ok loc → r.id = "loc456") :=
  (import_identifier_split
    { teamsLocation := fun _ _ => Except.ok {}
      deleteTeamsLocation := fun _ _ => none }
    { id := "acct123/loc456", attrs := [] } "acct123" "loc456").1 rfl (by decide)

/-- Witness for C3 amended: a successful delete is followed by the
lookup of Read. -/
theorem delete_reads_only_on_success_witness :
    ((resourceCloudflareTeamsLocationDelete
      { teamsLocation := fun _ _ => Except.ok {}
        deleteTeamsLocation := fun _ _ => none }
      { id := "loc1", attrs := [("account_id", Val.vStr "acct")] }).calls.any
        ApiCall.isGet) = true :=
  ((delete_reads_only_on_success
    { teamsLocation := fun _ _ => Except.ok {}
      deleteTeamsLocation := fun _ _ => none }
    { id := "loc1", attrs := [("account_id", Val.vStr "acct")] }).1 rfl).2

/-- Network lists survive the flatten/inflate round trip exactly. -/
theorem inflateNetworkList_flatten (ns : List TeamsLocationNetwork) :
    inflateNetworkList
      (ns.map (fun net => Val.vMap [("network", Val.vStr net.Network)])) =
      Except.ok ns := by
  induction ns with
  | nil => rfl
  | cons n t ih =>
    simp [inflateNetworkList, mapLookup, asStrPanic, ih]

/-- The from-list network inflater inverts the into-list flattener. -/
theorem inflateNetworks_flatten (ns : List TeamsLocationNetwork) :
    inflateTeamsLocationNetworksFromList (flattenTeamsLocationNetworksIntoList ns) =
      Except.ok ns := by
  unfold flattenTeamsLocationNetworksIntoList inflateTeamsLocationNetworksFromList
  exact inflateNetworkList_flatten ns

/-- C6: flattening an Endpoints struct and inflating the result
preserves every enabled flag, the require_token flags of dot and doh,
and every network list exactly, while the authentication flags of the
result are the zero value because inflation never reads them; moreover
rewriting the authentication_enabled binding of every per-kind block to
an arbitrary value does not change the inflation result at all. -/
theorem endpoints_roundtrip (e : TeamsLocationEndpoints) (v : Val) :
    inflateTeamsLocationEndpoint (flattenTeamsEndpoints e) =
      Except.ok (some
        { IPv4Endpoint := { Enabled := e.IPv4Endpoint.Enabled }
          IPv6Endpoint :=
            { base := { Enabled := e.IPv6Endpoint.base.Enabled
                        Networks := e.IPv6Endpoint.base.Networks } }
          DotEndpoint :=
            { RequireToken := e.DotEndpoint.RequireToken
              base := { Enabled := e.DotEndpoint.base.Enabled
                        Networks := e.DotEndpoint.base.Networks } }
          DohEndpoint :=
            { RequireToken := e.DohEndpoint.RequireToken
              base := { Enabled := e.DohEndpoint.base.Enabled
                        Networks := e.DohEndpoint.base.Networks } } }) ∧
    inflateTeamsLocationEndpoint (overrideAuthEnabled (flattenTeamsEndpoints e) v) =
      inflateTeamsLocationEndpoint (flattenTeamsEndpoints e) := by
  obtain ⟨⟨e4e, e4a⟩, ⟨⟨e6e, e6a, e6n⟩⟩, ⟨drt, de, da, dn⟩, ⟨hrt, he, ha, hn⟩⟩ := e
  constructor <;>
    simp [flattenTeamsEndpoints, flattenTeamsEndpointIpv4Field,
      flattenTeamsEndpointIpv6Field, flattenTeamsEndpointDOTField,
      flattenTeamsEndpointDOHField, overrideAuthEnabled, setMapKey,
      inflateTeamsLocationEndpoint, inflateIpv4Endpoint, inflateIpv6Endpoint,
      inflateDoTEndpoint, inflateDohEndpoint, firstItemInSet, mapLookup,
      asBoolPanic, wrapErr, inflateNetworks_flatten]

/-- Counterexample for C9 as stated: an empty per-kind list is not a
reported error but a panic (the source indexes element zero of the
list). -/
theorem inflate_empty_kind_list_panics_cx :
    inflateIpv4Endpoint (Val.vList []) = Except.error GoErr.panic := rfl

/-- C9 amended: per-kind inflation reads only the first element of its
list and of the top-level list, and rejects a non-list value with a
reported error, but an empty per-kind list is a panic, not a reported
error; the top-level empty list is the reported empty-endpoint
error. -/
theorem inflate_shape_behaviour (w x : Val) (rest : List Val) :
    ((∀ l, w ≠ Val.vList l) →
       inflateIpv4Endpoint w = Except.error (GoErr.err "error parsing endpoint item") ∧
       inflateIpv6Endpoint w = Except.error (GoErr.err "error parsing endpoint item") ∧
       inflateDoTEndpoint w = Except.error (GoErr.err "error parsing endpoint item") ∧
       inflateDohEndpoint w = Except.error (GoErr.err "error parsing endpoint item") ∧
       (w ≠ Val.vNil →
         inflateTeamsLocationEndpoint w =
           Except.error (GoErr.err "error parsing endpoint list"))) ∧
    (inflateIpv4Endpoint (Val.vList (x :: rest)) = inflateIpv4Endpoint (Val.vList [x]) ∧
     inflateIpv6Endpoint (Val.vList (x :: rest)) = inflateIpv6Endpoint (Val.vList [x]) ∧
     inflateDoTEndpoint (Val.vList (x :: rest)) = inflateDoTEndpoint (Val.vList [x]) ∧
     inflateDohEndpoint (Val.vList (x :: rest)) = inflateDohEndpoint (Val.vList [x]) ∧
     inflateTeamsLocationEndpoint (Val.vList (x :: rest)) =
       inflateTeamsLocationEndpoint (Val.vList [x])) ∧
    (inflateIpv4Endpoint (Val.vList []) = Except.error GoErr.panic ∧
     inflateIpv6Endpoint (Val.vList []) = Except.error GoErr.panic ∧
     inflateDoTEndpoint (Val.vList []) = Except.error GoErr.panic ∧
     inflateDohEndpoint (Val.vList []) = Except.error GoErr.panic ∧
     inflateTeamsLocationEndpoint (Val.vList []) =
       Except.error (GoErr.err "empty endpoint")) := by
  refine ⟨?_, ⟨rfl, rfl, rfl, rfl, rfl⟩, ⟨rfl, rfl, rfl, rfl, rfl⟩⟩
  intro hw
  cases w with
  | vList l => exact absurd rfl (hw l)
  | vNil => exact ⟨rfl, rfl, rfl, rfl, fun hn => absurd rfl hn⟩
  | vBool b => exact ⟨rfl, rfl, rfl, rfl, fun _ => rfl⟩
  | vInt n => exact ⟨rfl, rfl, rfl, rfl, fun _ => rfl⟩
  | vStr s => exact ⟨rfl, rfl, rfl, rfl, fun _ => rfl⟩
  | vMap m => exact ⟨rfl, rfl, rfl, rfl, fun _ => rfl⟩

/-- Witness for C9 amended: the non-list hypotheses discharged on a
string value. -/
theorem inflate_shape_behaviour_witness :
    inflateIpv4Endpoint (Val.vStr "x") =
      Except.error (GoErr.err "error parsing endpoint item") ∧
    inflateTeamsLocationEndpoint (Val.vStr "x") =
      Except.error (GoErr.err "error parsing endpoint list") := by
  have h := (inflate_shape_behaviour (Val.vStr "x") Val.vNil []).1
    (by intro l hl; exact Val.noConfusion hl)
  exact ⟨h.1, h.2.2.2.2 (by intro hl; exact Val.noConfusion hl)⟩

end SdkV2
